import Mathlib

/-!
Verification development for the vanta-cli signed-request provisioning
workflow (`src/vanta_cli`): entity registration
(`src/commands/entity/register.py`) and subaccount creation
(`src/commands/entity/create_subaccount.py`).

The Python code is shallowly embedded:

* The dictionaries that get signed and submitted are association lists
  `List (String × JVal)` in the literal insertion order of the Python
  dict displays.
* `json.dumps(d, sort_keys=True)` is `jsonDumpsSorted`: fields sorted
  lexicographically by name, rendered with Python's default separators
  `", "` and `": "`.  Numeric rendering uses Lean's decimal rendering of
  rationals in place of Python float `repr`; string rendering omits
  escape processing (all strings involved are plain SS58 addresses,
  asset-class names and hex digests).  The properties proved below
  (determinism, ordering, field sets) do not depend on the digits a
  number renders to.
* Monetary floats (`account_size`, `balance_theta`, `required_theta`)
  are embedded as exact rationals `ℚ`.
* The wallet, the interactive prompts and the two HTTP calls are inputs
  to the embedded workflow functions: the unlock outcome, the
  confirmation answer, the balance response and the submission response
  are arguments, and each workflow returns its Python return value
  together with the ordered trace of observable events (confirmation
  prompt, balance GET, signing, submission POST).
* `coldkey.sign(...).hex()` is an opaque function `signHex : String →
  String` carried by the unlocked key material.
-/

namespace VantaCli

/-- JSON values appearing in the dicts that are signed and POSTed by the
two entity commands: SS58 address strings, asset-class strings, the hex
signature, and the numeric `account_size`. -/
inductive JVal where
  | jstr (s : String)
  | jnum (q : ℚ)
deriving DecidableEq, Repr

/-- Python values returned by the embedded commands: `register` returns
booleans, `create_subaccount` returns (possibly nested) dicts whose
leaves may be `None` (a `.get` on a missing key). -/
inductive PyObj where
  | pstr (s : String)
  | pnum (q : ℚ)
  | pbool (b : Bool)
  | pnone
  | pdict (fields : List (String × PyObj))

/-- Outcome of running a Python function: a returned value, or an
uncaught exception. -/
inductive RunOut where
  | ret (v : PyObj)
  | exn (msg : String)

/-- Rendering of one JSON scalar, as `json.dumps` does (escape-free
strings; rationals rendered in decimal in place of float `repr`). -/
def renderJVal : JVal → String
  | .jstr s => "\"" ++ s ++ "\""
  | .jnum q => toString q

/-- One `"key": value` item of a serialized JSON object
(`json.dumps` default key separator `": "`). -/
def renderField (f : String × JVal) : String :=
  "\"" ++ f.1 ++ "\": " ++ renderJVal f.2

/-- Non-strict lexicographic order on fields by field name, the order
`sort_keys=True` sorts by. -/
def fieldLe (a b : String × JVal) : Prop := a.1 ≤ b.1

/-- Strict order on fields by field name. -/
def fieldLt (a b : String × JVal) : Prop := a.1 < b.1

instance : DecidableRel fieldLe := fun a b => by
  unfold fieldLe; infer_instance

instance : IsTotal (String × JVal) fieldLe :=
  ⟨fun a b => le_total a.1 b.1⟩

instance : IsTrans (String × JVal) fieldLe :=
  ⟨fun _ _ _ h₁ h₂ => le_trans h₁ h₂⟩

instance : IsAntisymm (String × JVal) fieldLt :=
  ⟨fun a _ h₁ h₂ => absurd (lt_trans h₁ h₂) (lt_irrefl a.1)⟩

/-- The field reordering performed by `json.dumps(..., sort_keys=True)`:
sort the assembled fields lexicographically by field name. -/
def sortFields (l : List (String × JVal)) : List (String × JVal) :=
  l.insertionSort fieldLe

/-- Embedding of `json.dumps(d, sort_keys=True)` on a flat dict: sorted fields joined
with the default item separator `", "` inside braces.  This string,
UTF-8 encoded, is the byte sequence the coldkey signs
(`register.py` line 114, `create_subaccount.py` line 150). -/
def jsonDumpsSorted (l : List (String × JVal)) : String :=
  "\x7b" ++ String.intercalate ", " ((sortFields l).map renderField) ++ "\x7d"

/-- The dict `subaccount_data` of `create_subaccount.py` lines 142–147, in the
source's insertion order. -/
def subaccountData (ck hk : String) (accountSize : ℚ) (assetClass : String) :
    List (String × JVal) :=
  [("entity_coldkey", .jstr ck), ("entity_hotkey", .jstr hk),
   ("account_size", .jnum accountSize), ("asset_class", .jstr assetClass)]

/-- The dict `payload` of `create_subaccount.py` lines 156–162: the same fields
plus the hex signature. -/
def csPayload (ck hk : String) (accountSize : ℚ) (assetClass : String)
    (sig : String) : List (String × JVal) :=
  [("entity_coldkey", .jstr ck), ("entity_hotkey", .jstr hk),
   ("account_size", .jnum accountSize), ("asset_class", .jstr assetClass),
   ("signature", .jstr sig)]

/-- The dict `registration_data` of `register.py` lines 107–111
(`max_subaccounts` is commented out in the source). -/
def registrationData (ck hk : String) : List (String × JVal) :=
  [("entity_coldkey", .jstr ck), ("entity_hotkey", .jstr hk)]

/-- The dict `payload` of `register.py` lines 120–125 (`max_subaccounts` is
commented out in the source). -/
def regPayload (ck hk sig : String) : List (String × JVal) :=
  [("entity_coldkey", .jstr ck), ("entity_hotkey", .jstr hk),
   ("signature", .jstr sig)]

/-- Keys of an association list of fields. -/
def fieldKeys (l : List (String × JVal)) : List String := l.map Prod.fst

/-! ## Workflow embedding -/

/-- The unlocked wallet material the commands use: the coldkey and
hotkey SS58 addresses and the coldkey's signing capability
(`coldkey.sign(...).hex()`), opaque to the workflow. -/
structure Keys where
  coldkeyAddr : String
  hotkeyAddr : String
  signHex : String → String

/-- Observable effects of a run, in program order: the interactive
confirmation prompt, the balance GET, the signing of the canonical
message, and the submission POST with its JSON payload fields. -/
inductive Ev where
  | confirmPrompt (text : String)
  | balanceFetch (path : String)
  | sign (message : String)
  | submit (path : String) (payload : List (String × JVal))
deriving DecidableEq, Repr

/-- The fields of the `/entity/create-subaccount` response's
`subaccount` object that `create_subaccount` reads back
(each via `.get`, so each may be absent). -/
structure SubInfo where
  synthetic_hotkey : Option String := none
  subaccount_id : Option ℚ := none
  subaccount_uuid : Option String := none
  account_size : Option ℚ := none
  asset_class : Option String := none
  status : Option String := none

/-- The fields of a submission response that either command reads:
`status`, `message`, `error`, and (for subaccount creation) the
`subaccount` object.  Absent keys are `none`. -/
structure SubResp where
  status : Option String := none
  message : Option String := none
  error : Option String := none
  subaccount : Option SubInfo := none

/-- Inputs of one `create_subaccount` run.  The collaborators the
Python function calls out to are explicit inputs: `unlock` is the
outcome of `wallet.get_coldkey` (`.error e` when it raises), `confirm`
the `typer.confirm` answer, `balResp` the balance GET result (`none`
for a falsy/absent response, otherwise the optional `balance_theta`
field), `submitResp` the submission POST result (`.error e` when
`make_api_request` raises inside the `try`, `.ok none` for a `None`
response). -/
structure CsIn where
  accountSize : ℚ
  assetClass : String
  prompt : Bool
  unlock : Except String Keys
  confirm : Bool
  balResp : Option (Option ℚ)
  submitResp : Except String (Option SubResp)

/-- Inputs of one `register` run, analogous to `CsIn`;
`maxSubaccounts` is the CLI argument of the same name. -/
structure RegIn where
  maxSubaccounts : ℤ
  prompt : Bool
  unlock : Except String Keys
  confirm : Bool
  balResp : Option (Option ℚ)
  submitResp : Except String (Option SubResp)

/-- The `max_account_size` constant, `create_subaccount.py` line 70. -/
def maxAccountSize : ℚ := 100000

/-- The `cost_per_theta` constant, `create_subaccount.py` line 71. -/
def costPerTheta : ℚ := 5000

/-- The `registration_fee` constant, `register.py` line 49. -/
def registrationFee : ℚ := 5000

/-- Embedding of `required_theta = account_size / cost_per_theta`,
`create_subaccount.py` line 87 (exact rational arithmetic in place of
the source's float division). -/
def requiredTheta (accountSize : ℚ) : ℚ := accountSize / costPerTheta

/-- The balance a run observes: `response.get("balance_theta", 0)` when
the balance response is truthy, else `0` (`create_subaccount.py` lines
131–132). -/
def csBalance (balResp : Option (Option ℚ)) : ℚ :=
  match balResp with
  | none => 0
  | some f => f.getD 0

/-- An error return `{"status": "error", "message": msg}` of
`create_subaccount`. -/
def errDict (msg : String) : PyObj :=
  .pdict [("status", .pstr "error"), ("message", .pstr msg)]

/-- Python's `x or default` for an optional string `x` (absent and
empty strings are falsy). -/
def pyOr (o : Option String) (d : String) : String :=
  match o with
  | some s => if s = "" then d else s
  | none => d

/-- A `.get` result for a string field: the value, or Python `None`. -/
def optStr (o : Option String) : PyObj :=
  match o with
  | some s => .pstr s
  | none => .pnone

/-- A `.get` result for a numeric field: the value, or Python `None`. -/
def optNum (o : Option ℚ) : PyObj :=
  match o with
  | some q => .pnum q
  | none => .pnone

/-- The `typer.confirm` text of `create_subaccount.py` lines 118–122
(numbers rendered plainly in place of Python's `:,` / `:.4f`
formats). -/
def csConfirmText (hk : String) (accountSize : ℚ) (assetClass : String)
    (required : ℚ) : String :=
  "Create subaccount for entity " ++ hk ++ " with $" ++ toString accountSize
    ++ " account size and " ++ assetClass ++ " asset class (costs "
    ++ toString required ++ " Theta)?"

/-- The `typer.confirm` text of `register.py` lines 75–78. -/
def regConfirmText (hk : String) (maxSubaccounts : ℤ) : String :=
  "Register entity " ++ hk ++ " with " ++ toString maxSubaccounts
    ++ " max subaccounts (costs " ++ toString registrationFee ++ " Theta)?"

/-- The success return dict of `create_subaccount.py` lines 209–221. -/
def csSuccessDict (successMsg : String) (sub : SubInfo) (required : ℚ) :
    PyObj :=
  .pdict [("status", .pstr "success"), ("message", .pstr successMsg),
    ("subaccount", .pdict [
      ("synthetic_hotkey", optStr sub.synthetic_hotkey),
      ("subaccount_id", optNum sub.subaccount_id),
      ("subaccount_uuid", optStr sub.subaccount_uuid),
      ("account_size", optNum sub.account_size),
      ("asset_class", optStr sub.asset_class),
      ("status", optStr sub.status)]),
    ("collateral_charged", .pnum required)]

/-- Embedding of `create_subaccount` (`create_subaccount.py` lines
16–232): returns the Python return value and the ordered trace of
observable events.  Control flow follows the source line by line;
console output is omitted; error-message number formatting is rendered
plainly. -/
def createSubaccount (i : CsIn) : RunOut × List Ev :=
  if i.accountSize > maxAccountSize then
    (.ret (errDict ("Account size $" ++ toString i.accountSize
      ++ " exceeds maximum $" ++ toString maxAccountSize)), [])
  else if i.accountSize ≤ 0 then
    (.ret (errDict "Account size must be positive"), [])
  else
    let required := requiredTheta i.accountSize
    match i.unlock with
    | .error e => (.ret (errDict ("Failed to unlock wallet: " ++ e)), [])
    | .ok k =>
      let evs0 : List Ev :=
        if i.prompt then
          [.confirmPrompt (csConfirmText k.hotkeyAddr i.accountSize
            i.assetClass required)]
        else []
      if i.prompt && !i.confirm then
        (.ret (errDict "Subaccount creation cancelled"), evs0)
      else
        let evs1 := evs0 ++ [.balanceFetch ("/collateral/balance/" ++ k.hotkeyAddr)]
        if i.balResp = none ∨ csBalance i.balResp < required then
          (.ret (errDict ("Insufficient collateral for subaccount creation: "
            ++ toString (csBalance i.balResp) ++ " Theta available, "
            ++ toString required ++ " Theta required")), evs1)
        else
          let data := subaccountData k.coldkeyAddr k.hotkeyAddr
            i.accountSize i.assetClass
          let msg := jsonDumpsSorted data
          let sig := k.signHex msg
          let payload := csPayload k.coldkeyAddr k.hotkeyAddr
            i.accountSize i.assetClass sig
          let evs2 := evs1 ++ [.sign msg, .submit "/entity/create-subaccount" payload]
          match i.submitResp with
          | .error e =>
            (.ret (errDict ("Error during subaccount creation: " ++ e)), evs2)
          | .ok none =>
            (.ret (errDict "Subaccount creation failed - no response from API"), evs2)
          | .ok (some r) =>
            if r.status = some "success" then
              (.ret (csSuccessDict
                (r.message.getD "Subaccount created successfully")
                (r.subaccount.getD {}) required), evs2)
            else
              (.ret (errDict ("Subaccount creation failed: "
                ++ pyOr r.error "Unknown error occurred")), evs2)

/-- Embedding of `register` (`register.py` lines 16–166): returns the
Python return value — a bare boolean on every normal path — and the
event trace.  The balance check `response.get("balance_theta") <
registration_fee` (line 85) has no default: a truthy response without
the `balance_theta` key compares `None < int` and raises `TypeError`,
which no enclosing `try` catches. -/
def register (i : RegIn) : RunOut × List Ev :=
  match i.unlock with
  | .error _ => (.ret (.pbool false), [])
  | .ok k =>
    let evs0 : List Ev :=
      if i.prompt then
        [.confirmPrompt (regConfirmText k.hotkeyAddr i.maxSubaccounts)]
      else []
    if i.prompt && !i.confirm then
      (.ret (.pbool false), evs0)
    else
      let evs1 := evs0 ++ [.balanceFetch ("/collateral/balance/" ++ k.hotkeyAddr)]
      match i.balResp with
      | none => (.ret (.pbool false), evs1)
      | some none =>
        (.exn "TypeError: '<' not supported between instances of 'NoneType' and 'int'",
          evs1)
      | some (some b) =>
        if b < registrationFee then
          (.ret (.pbool false), evs1)
        else
          let data := registrationData k.coldkeyAddr k.hotkeyAddr
          let msg := jsonDumpsSorted data
          let sig := k.signHex msg
          let payload := regPayload k.coldkeyAddr k.hotkeyAddr sig
          let evs2 := evs1 ++ [.sign msg, .submit "/entity/register" payload]
          match i.submitResp with
          | .error _ => (.ret (.pbool false), evs2)
          | .ok none => (.ret (.pbool false), evs2)
          | .ok (some r) =>
            if r.status = some "success" then (.ret (.pbool true), evs2)
            else (.ret (.pbool false), evs2)

/-! ## Observation helpers and concrete runs -/

/-- The asset classes the CLI offers when `--asset-class` is omitted
(`vanta.py` line 348). -/
def configuredAssetClasses : List String := ["crypto", "forex"]

/-- First-match association-list lookup (the dicts built by the
commands have distinct keys, so this is Python dict access). -/
def lookupField (k : String) : List (String × PyObj) → Option PyObj
  | [] => none
  | (k', v) :: t => if k' = k then some v else lookupField k t

/-- Whether a Python return value has the caller-facing structured
shape `{"status": "success"|"error", "message": str, ...}`. -/
def isStructuredResult (v : PyObj) : Bool :=
  match v with
  | .pdict fs =>
    (match lookupField "status" fs with
     | some (.pstr s) => s == "success" || s == "error"
     | _ => false)
    && (match lookupField "message" fs with
        | some (.pstr _) => true
        | _ => false)
  | _ => false

/-- Whether `pat` occurs contiguously (verbatim) inside `s`. -/
def strContainsSub (s pat : String) : Bool :=
  s.data.tails.any (fun t => pat.data.isPrefixOf t)

/-- Whether a Python return value is a dict whose `"message"` entry
carries `m` verbatim (as a contiguous substring). -/
def carriesMessage (v : PyObj) (m : String) : Bool :=
  match v with
  | .pdict fs =>
    (match lookupField "message" fs with
     | some (.pstr s) => strContainsSub s m
     | _ => false)
  | _ => false

/-- The canonical messages signed during a run, in order. -/
def signedMessages (evs : List Ev) : List String :=
  evs.filterMap fun e =>
    match e with
    | .sign m => some m
    | _ => none

/-- The JSON payloads POSTed during a run, in order. -/
def submittedPayloads (evs : List Ev) : List (List (String × JVal)) :=
  evs.filterMap fun e =>
    match e with
    | .submit _ p => some p
    | _ => none

/-- Demonstration wallet material for concrete runs. -/
def demoKeys : Keys :=
  { coldkeyAddr := "5ColdDemoAddr", hotkeyAddr := "5HotDemoAddr",
    signHex := fun _ => "ab12cd34" }

/-- A successful server reply to a subaccount creation. -/
def demoSubResp : SubResp :=
  { status := some "success", message := some "Subaccount created",
    error := none,
    subaccount := some
      { synthetic_hotkey := some "5SynthHot", subaccount_id := some 7,
        subaccount_uuid := some "uuid-7", account_size := some 10000,
        asset_class := some "equities", status := some "active" } }

/-- A `create_subaccount` run whose `asset_class` is outside the
configured set, with every other collaborator answering favourably. -/
def c3Run : CsIn :=
  { accountSize := 10000, assetClass := "equities", prompt := false,
    unlock := .ok demoKeys, confirm := true, balResp := some (some 100),
    submitResp := .ok (some demoSubResp) }

/-- An out-of-range `create_subaccount` run (`account_size = 200000`
against the 100000 ceiling). -/
def c4Run : CsIn :=
  { accountSize := 200000, assetClass := "crypto", prompt := false,
    unlock := .ok demoKeys, confirm := true, balResp := some (some 100),
    submitResp := .ok (some demoSubResp) }

/-- A `register` run whose wallet unlock fails. -/
def c5Run : RegIn :=
  { maxSubaccounts := 500, prompt := false, unlock := .error "bad password",
    confirm := true, balResp := none, submitResp := .ok none }

/-- A `register` run whose balance response is a truthy dict lacking
the `balance_theta` key. -/
def c6RegRun : RegIn :=
  { maxSubaccounts := 500, prompt := false, unlock := .ok demoKeys,
    confirm := true, balResp := some none, submitResp := .ok none }

/-- The analogous `create_subaccount` run: balance response present but
without `balance_theta`. -/
def c6CsRun : CsIn :=
  { accountSize := 10000, assetClass := "crypto", prompt := false,
    unlock := .ok demoKeys, confirm := true, balResp := some none,
    submitResp := .ok none }

/-- A `create_subaccount` run with confirmation enabled and declined. -/
def c7Run : CsIn :=
  { accountSize := 10000, assetClass := "crypto", prompt := true,
    unlock := .ok demoKeys, confirm := false, balResp := some (some 100),
    submitResp := .ok (some demoSubResp) }

/-- A `create_subaccount` run with confirmation enabled and accepted. -/
def c7AcceptRun : CsIn :=
  { accountSize := 10000, assetClass := "crypto", prompt := true,
    unlock := .ok demoKeys, confirm := true, balResp := some (some 100),
    submitResp := .ok (some demoSubResp) }

/-- A `register` run with confirmation enabled and declined. -/
def c7RegRun : RegIn :=
  { maxSubaccounts := 500, prompt := true, unlock := .ok demoKeys,
    confirm := false, balResp := some (some 10000), submitResp := .ok none }

/-- A `register` run whose submission is answered with a non-success
status and a server-supplied error message. -/
def c9RegRun : RegIn :=
  { maxSubaccounts := 500, prompt := false, unlock := .ok demoKeys,
    confirm := true, balResp := some (some 10000),
    submitResp := .ok (some
      { status := some "failed", message := none,
        error := some "entity already registered", subaccount := none }) }

/-- The analogous `create_subaccount` run answered with a non-success
status and a server-supplied error message. -/
def c9CsRun : CsIn :=
  { accountSize := 10000, assetClass := "crypto", prompt := false,
    unlock := .ok demoKeys, confirm := true, balResp := some (some 100),
    submitResp := .ok (some
      { status := some "failed", message := none,
        error := some "duplicate subaccount", subaccount := none }) }

/-- A fully favourable `create_subaccount` run (used to witness
run-level theorems at an input that reaches submission). -/
def happyCsRun : CsIn :=
  { accountSize := 10000, assetClass := "crypto", prompt := false,
    unlock := .ok demoKeys, confirm := true, balResp := some (some 100),
    submitResp := .ok (some demoSubResp) }

/-- A fully favourable `register` run. -/
def happyRegRun : RegIn :=
  { maxSubaccounts := 500, prompt := false, unlock := .ok demoKeys,
    confirm := true, balResp := some (some 10000),
    submitResp := .ok (some
      { status := some "success", message := some "registered",
        error := none, subaccount := none }) }

/-! ## Canonicalization lemmas -/

lemma sorted_le_sortFields (l : List (String × JVal)) :
    (sortFields l).Sorted fieldLe :=
  List.sorted_insertionSort fieldLe l

lemma perm_sortFields (l : List (String × JVal)) : List.Perm (sortFields l) l :=
  List.perm_insertionSort fieldLe l

/-- A ≤-sorted field list whose keys are pairwise distinct is sorted by
the strict key order. -/
lemma pairwise_lt_of_le_of_ne :
    ∀ {l : List (String × JVal)}, l.Pairwise fieldLe →
      l.Pairwise (fun a b => a.1 ≠ b.1) → l.Pairwise fieldLt
  | [], _, _ => List.Pairwise.nil
  | _ :: _, List.Pairwise.cons hle tle, List.Pairwise.cons hne tne =>
    List.Pairwise.cons
      (fun b hb => lt_of_le_of_ne (hle b hb) (hne b hb))
      (pairwise_lt_of_le_of_ne tle tne)

/-- Distinctness of keys in `Pairwise` form. -/
lemma pairwise_ne_of_nodup_keys {l : List (String × JVal)}
    (h : (fieldKeys l).Nodup) : l.Pairwise (fun a b => a.1 ≠ b.1) := by
  have := (List.pairwise_map (l := l) (R := (· ≠ ·)) (f := Prod.fst)).mp h
  exact this

/-- Two assemblies of the same fields (in any order, with distinct
field names) sort to the same list: `sort_keys=True` erases
construction order. -/
lemma sortFields_eq_of_perm {l₁ l₂ : List (String × JVal)}
    (hp : List.Perm l₁ l₂) (hnd : (fieldKeys l₂).Nodup) :
    sortFields l₁ = sortFields l₂ := by
  have hperm : List.Perm (sortFields l₁) (sortFields l₂) :=
    (perm_sortFields l₁).trans (hp.trans (perm_sortFields l₂).symm)
  have hnd₁ : (fieldKeys (sortFields l₂)).Nodup := by
    have h : List.Perm (fieldKeys (sortFields l₂)) (fieldKeys l₂) :=
      (perm_sortFields l₂).map Prod.fst
    exact h.nodup_iff.mpr hnd
  have hnd₂ : (fieldKeys (sortFields l₁)).Nodup := by
    have h : List.Perm (fieldKeys (sortFields l₁)) (fieldKeys (sortFields l₂)) :=
      hperm.map Prod.fst
    exact h.nodup_iff.mpr hnd₁
  exact List.eq_of_perm_of_sorted hperm
    (pairwise_lt_of_le_of_ne (sorted_le_sortFields l₁)
      (pairwise_ne_of_nodup_keys hnd₂))
    (pairwise_lt_of_le_of_ne (sorted_le_sortFields l₂)
      (pairwise_ne_of_nodup_keys hnd₁))

/-- The serialized canonical payload is invariant under assembly
order. -/
lemma jsonDumpsSorted_eq_of_perm {l₁ l₂ : List (String × JVal)}
    (hp : List.Perm l₁ l₂) (hnd : (fieldKeys l₂).Nodup) :
    jsonDumpsSorted l₁ = jsonDumpsSorted l₂ := by
  unfold jsonDumpsSorted
  rw [sortFields_eq_of_perm hp hnd]

/-! ## Evaluation lemmas for concrete runs -/

lemma requiredTheta_10000 : requiredTheta 10000 = 2 := by
  norm_num [requiredTheta, costPerTheta]

lemma cs_c3_eval :
    createSubaccount c3Run
      = (.ret (csSuccessDict "Subaccount created"
          { synthetic_hotkey := some "5SynthHot", subaccount_id := some 7,
            subaccount_uuid := some "uuid-7", account_size := some 10000,
            asset_class := some "equities", status := some "active" } 2),
         [Ev.balanceFetch "/collateral/balance/5HotDemoAddr",
          Ev.sign (jsonDumpsSorted (subaccountData "5ColdDemoAddr" "5HotDemoAddr"
            10000 "equities")),
          Ev.submit "/entity/create-subaccount"
            (csPayload "5ColdDemoAddr" "5HotDemoAddr" 10000 "equities" "ab12cd34")]) := by
  unfold createSubaccount
  norm_num [c3Run, demoKeys, demoSubResp, maxAccountSize, csBalance,
    requiredTheta_10000]
  rw [if_neg (by simp)]
  rfl

lemma cs_c6_eval :
    createSubaccount c6CsRun
      = (.ret (errDict
          "Insufficient collateral for subaccount creation: 0 Theta available, 2 Theta required"),
         [Ev.balanceFetch "/collateral/balance/5HotDemoAddr"]) := by
  unfold createSubaccount
  norm_num [c6CsRun, demoKeys, maxAccountSize, csBalance, requiredTheta_10000]
  exact ⟨rfl, rfl⟩

/-- Everything true once a `create_subaccount` run emits a submission
POST: the POST path and payload are determined by the unlocked keys and
the request fields, the canonical message was signed, and a non-success
submission response makes the run return the error dict built from the
server's `error` field. -/
lemma cs_submission_facts (i : CsIn) (k : Keys) (hu : i.unlock = .ok k)
    (pth : String) (p : List (String × JVal))
    (hmem : Ev.submit pth p ∈ (createSubaccount i).2) :
    pth = "/entity/create-subaccount"
    ∧ p = csPayload k.coldkeyAddr k.hotkeyAddr i.accountSize i.assetClass
        (k.signHex (jsonDumpsSorted (subaccountData k.coldkeyAddr k.hotkeyAddr
          i.accountSize i.assetClass)))
    ∧ Ev.sign (jsonDumpsSorted (subaccountData k.coldkeyAddr k.hotkeyAddr
        i.accountSize i.assetClass)) ∈ (createSubaccount i).2
    ∧ (∀ r : SubResp, i.submitResp = .ok (some r) → r.status ≠ some "success" →
        (createSubaccount i).1 = .ret (errDict ("Subaccount creation failed: "
          ++ pyOr r.error "Unknown error occurred"))) := by
  unfold createSubaccount at hmem ⊢
  rw [hu] at hmem ⊢
  repeat' split at hmem
  all_goals try simp_all
  all_goals repeat' split at hmem
  all_goals simp_all
  all_goals repeat' split
  all_goals simp_all
  all_goals linarith

/-- Everything true once a `register` run emits a submission POST: the
POST path and payload are determined by the unlocked keys alone, the
canonical message was signed, and a non-success submission response
makes the run return the boolean `False`. -/
lemma reg_submission_facts (i : RegIn) (k : Keys) (hu : i.unlock = .ok k)
    (pth : String) (p : List (String × JVal))
    (hmem : Ev.submit pth p ∈ (register i).2) :
    pth = "/entity/register"
    ∧ p = regPayload k.coldkeyAddr k.hotkeyAddr
        (k.signHex (jsonDumpsSorted (registrationData k.coldkeyAddr k.hotkeyAddr)))
    ∧ Ev.sign (jsonDumpsSorted (registrationData k.coldkeyAddr k.hotkeyAddr))
        ∈ (register i).2
    ∧ (∀ r : SubResp, i.submitResp = .ok (some r) → r.status ≠ some "success" →
        (register i).1 = .ret (.pbool false)) := by
  unfold register at hmem ⊢
  rw [hu] at hmem ⊢
  repeat' split at hmem
  all_goals try simp_all
  all_goals repeat' split
  all_goals try simp_all
  all_goals try linarith

/-- A string carries any of its suffixes verbatim. -/
lemma strContainsSub_suffix (pre s : String) :
    strContainsSub (pre ++ s) s = true := by
  unfold strContainsSub
  rw [List.any_eq_true]
  refine ⟨s.data, ?_, ?_⟩
  · rw [List.mem_tails, String.data_append]
    exact List.suffix_append _ _
  · rw [List.isPrefixOf_iff_prefix]

lemma cs_c7_eval :
    createSubaccount c7Run
      = (.ret (errDict "Subaccount creation cancelled"),
         [Ev.confirmPrompt (csConfirmText "5HotDemoAddr" 10000 "crypto" 2)]) := by
  unfold createSubaccount
  norm_num [c7Run, demoKeys, maxAccountSize, requiredTheta_10000]

lemma cs_happy_eval :
    createSubaccount happyCsRun
      = (.ret (csSuccessDict "Subaccount created"
          { synthetic_hotkey := some "5SynthHot", subaccount_id := some 7,
            subaccount_uuid := some "uuid-7", account_size := some 10000,
            asset_class := some "equities", status := some "active" } 2),
         [Ev.balanceFetch "/collateral/balance/5HotDemoAddr",
          Ev.sign (jsonDumpsSorted (subaccountData "5ColdDemoAddr" "5HotDemoAddr"
            10000 "crypto")),
          Ev.submit "/entity/create-subaccount"
            (csPayload "5ColdDemoAddr" "5HotDemoAddr" 10000 "crypto" "ab12cd34")]) := by
  unfold createSubaccount
  norm_num [happyCsRun, demoKeys, demoSubResp, maxAccountSize, csBalance,
    requiredTheta_10000]
  rw [if_neg (by simp)]
  rfl

lemma cs_c9_eval :
    createSubaccount c9CsRun
      = (.ret (errDict "Subaccount creation failed: duplicate subaccount"),
         [Ev.balanceFetch "/collateral/balance/5HotDemoAddr",
          Ev.sign (jsonDumpsSorted (subaccountData "5ColdDemoAddr" "5HotDemoAddr"
            10000 "crypto")),
          Ev.submit "/entity/create-subaccount"
            (csPayload "5ColdDemoAddr" "5HotDemoAddr" 10000 "crypto" "ab12cd34")]) := by
  unfold createSubaccount
  norm_num [c9CsRun, demoKeys, maxAccountSize, csBalance, requiredTheta_10000, pyOr]
  rw [if_neg (by simp)]
  rfl

lemma cs_c7Accept_eval :
    createSubaccount c7AcceptRun
      = (.ret (csSuccessDict "Subaccount created"
          { synthetic_hotkey := some "5SynthHot", subaccount_id := some 7,
            subaccount_uuid := some "uuid-7", account_size := some 10000,
            asset_class := some "equities", status := some "active" } 2),
         [Ev.confirmPrompt (csConfirmText "5HotDemoAddr" 10000 "crypto" 2),
          Ev.balanceFetch "/collateral/balance/5HotDemoAddr",
          Ev.sign (jsonDumpsSorted (subaccountData "5ColdDemoAddr" "5HotDemoAddr"
            10000 "crypto")),
          Ev.submit "/entity/create-subaccount"
            (csPayload "5ColdDemoAddr" "5HotDemoAddr" 10000 "crypto" "ab12cd34")]) := by
  unfold createSubaccount
  norm_num [c7AcceptRun, demoKeys, demoSubResp, maxAccountSize, csBalance,
    requiredTheta_10000]
  rw [if_neg (by simp)]
  rfl

/-! ## Claim theorems -/

/-- C1: for both operation kinds, the byte sequence signed by the
coldkey is determined by the field values alone — any assembly order of
the same fields serializes to the identical canonical string — and the
serialized field order is lexicographic by field name. -/
theorem C1_canonicalization_deterministic_lexicographic :
    (∀ (ck hk assetClass : String) (accountSize : ℚ) (l : List (String × JVal)),
      List.Perm l (subaccountData ck hk accountSize assetClass) →
      jsonDumpsSorted l = jsonDumpsSorted (subaccountData ck hk accountSize assetClass))
    ∧ (∀ (ck hk : String) (l : List (String × JVal)),
      List.Perm l (registrationData ck hk) →
      jsonDumpsSorted l = jsonDumpsSorted (registrationData ck hk))
    ∧ (∀ l : List (String × JVal),
      (fieldKeys (sortFields l)).Pairwise (· ≤ ·)) := by
  refine ⟨?_, ?_, ?_⟩
  · intro ck hk assetClass accountSize l hp
    refine jsonDumpsSorted_eq_of_perm hp ?_
    have hk : fieldKeys (subaccountData ck hk accountSize assetClass)
        = ["entity_coldkey", "entity_hotkey", "account_size", "asset_class"] := rfl
    rw [hk]
    decide
  · intro ck hk l hp
    refine jsonDumpsSorted_eq_of_perm hp ?_
    have hk : fieldKeys (registrationData ck hk)
        = ["entity_coldkey", "entity_hotkey"] := rfl
    rw [hk]
    decide
  · intro l
    have h := sorted_le_sortFields l
    exact (List.pairwise_map).mpr h

/-- C1 witness: a concrete reordered assembly of the subaccount fields
serializes to the same canonical string as the source's assembly
order. -/
theorem C1_canonicalization_witness :
    jsonDumpsSorted
      [("asset_class", JVal.jstr "crypto"), ("entity_hotkey", JVal.jstr "5HotDemoAddr"),
       ("account_size", JVal.jnum 10000), ("entity_coldkey", JVal.jstr "5ColdDemoAddr")]
      = jsonDumpsSorted (subaccountData "5ColdDemoAddr" "5HotDemoAddr" 10000 "crypto") :=
  C1_canonicalization_deterministic_lexicographic.1
    "5ColdDemoAddr" "5HotDemoAddr" "crypto" 10000 _ (by decide)

/-- C4: an out-of-range `account_size` (nonpositive, or above the
100000 ceiling) makes `create_subaccount` return a structured error
immediately, with an empty event trace — no balance GET and no
submission POST. -/
theorem C4_out_of_range_rejected_without_io :
    ∀ i : CsIn, i.accountSize ≤ 0 ∨ i.accountSize > maxAccountSize →
      ∃ m, createSubaccount i = (.ret (errDict m), []) := by
  intro i h
  unfold createSubaccount
  rcases h with h | h
  · have hn : ¬ i.accountSize > maxAccountSize := by
      have : (0:ℚ) ≤ maxAccountSize := by norm_num [maxAccountSize]
      exact not_lt.mpr (h.trans this)
    rw [if_neg hn, if_pos h]
    exact ⟨_, rfl⟩
  · rw [if_pos h]
    exact ⟨_, rfl⟩

/-- C4 witness: the spec's end-to-end example, `account_size = 200000`
against the 100000 ceiling, is rejected with no event at all. -/
theorem C4_out_of_range_witness :
    (c4Run.accountSize ≤ 0 ∨ c4Run.accountSize > maxAccountSize)
    ∧ ∃ m, createSubaccount c4Run = (.ret (errDict m), []) :=
  ⟨Or.inr (by decide),
   C4_out_of_range_rejected_without_io c4Run (Or.inr (by decide))⟩

/-- C8: the required collateral `account_size / 5000` over exact
arithmetic is linear (`required(2·x) = 2·required(x)`), monotone in
`account_size`, and equals exactly 2 at `account_size = 10000`. -/
theorem C8_requiredTheta_linear_monotone :
    (∀ x : ℚ, requiredTheta (2 * x) = 2 * requiredTheta x)
    ∧ (∀ x y : ℚ, x ≤ y → requiredTheta x ≤ requiredTheta y)
    ∧ requiredTheta 10000 = 2 := by
  refine ⟨fun x => ?_, fun x y h => ?_, by norm_num [requiredTheta, costPerTheta]⟩
  · unfold requiredTheta costPerTheta
    ring
  · unfold requiredTheta costPerTheta
    gcongr

/-- C8 witness: monotonicity applied at 3 ≤ 5, and the end-to-end
figure for `account_size = 10000`. -/
theorem C8_requiredTheta_witness :
    requiredTheta 3 ≤ requiredTheta 5 ∧ requiredTheta 10000 = 2 :=
  ⟨C8_requiredTheta_linear_monotone.2.1 3 5 (by decide),
   C8_requiredTheta_linear_monotone.2.2⟩

/-- C3: there is no asset-class validation in `create_subaccount`.
`"equities"` is outside the configured set `{crypto, forex}`, yet the
run performs the balance GET, signs, POSTs to the submission endpoint
and returns success carrying `"equities"` — no `InvalidAssetClass`
rejection, and network I/O does occur.  This contradicts the command's
own docstring step 2 (`create_subaccount.py` line 32, "Validates
account size and asset class") and the spec. -/
theorem C3_no_asset_class_validation :
    "equities" ∉ configuredAssetClasses
    ∧ Ev.balanceFetch "/collateral/balance/5HotDemoAddr" ∈ (createSubaccount c3Run).2
    ∧ Ev.submit "/entity/create-subaccount"
        (csPayload "5ColdDemoAddr" "5HotDemoAddr" 10000 "equities" "ab12cd34")
        ∈ (createSubaccount c3Run).2
    ∧ (createSubaccount c3Run).1
        = .ret (csSuccessDict "Subaccount created"
            { synthetic_hotkey := some "5SynthHot", subaccount_id := some 7,
              subaccount_uuid := some "uuid-7", account_size := some 10000,
              asset_class := some "equities", status := some "active" } 2) := by
  refine ⟨by decide, ?_, ?_, ?_⟩
  · rw [cs_c3_eval]
    decide
  · rw [cs_c3_eval]
    decide
  · rw [cs_c3_eval]

/-- C5 counterexample: a `register` invocation (here: failed wallet
unlock) terminates with the bare boolean `False`, which does not have
the structured `{status, message}` shape the claim asserts for every
workflow invocation. -/
theorem C5_counterexample_register_returns_bool :
    (register c5Run).1 = RunOut.ret (.pbool false)
    ∧ isStructuredResult (.pbool false) = false :=
  ⟨rfl, rfl⟩

/-- C6: on a truthy balance response lacking the `balance_theta` key,
`register` (line 85, `response.get("balance_theta") < registration_fee`
with no default) raises an uncaught `TypeError` instead of reporting
conservatively — while `create_subaccount` (line 131, `.get` with
default `0`) does return the structured conservative error with
`available = 0`. -/
theorem C6_register_uncaught_typeerror_on_missing_balance :
    register c6RegRun
      = (.exn "TypeError: '<' not supported between instances of 'NoneType' and 'int'",
         [Ev.balanceFetch "/collateral/balance/5HotDemoAddr"])
    ∧ createSubaccount c6CsRun
      = (.ret (errDict
          "Insufficient collateral for subaccount creation: 0 Theta available, 2 Theta required"),
         [Ev.balanceFetch "/collateral/balance/5HotDemoAddr"]) :=
  ⟨rfl, cs_c6_eval⟩

/-- C7 counterexample: with interactive confirmation enabled, the
confirmation prompt is reached while the balance GET has not happened:
declining leaves a trace containing only the confirmation prompt — the
prompt is *not* between `BalanceChecked` and `Signed` but before the
balance check. -/
theorem C7_counterexample_confirmation_before_balance_check :
    createSubaccount c7Run
      = (.ret (errDict "Subaccount creation cancelled"),
         [Ev.confirmPrompt (csConfirmText "5HotDemoAddr" 10000 "crypto" 2)])
    ∧ Ev.balanceFetch "/collateral/balance/5HotDemoAddr" ∉ (createSubaccount c7Run).2 := by
  refine ⟨cs_c7_eval, ?_⟩
  rw [cs_c7_eval]
  decide

/-- C2: in every run of either command that reaches submission, the
signed byte sequence is the canonical serialization of the request
fields with no `signature` field among them, and the POSTed JSON
payload is exactly those signed fields plus the single `signature`
field holding the hex signature of the signed bytes. -/
theorem C2_signature_excluded_and_posted_payload_exact :
    (∀ (i : CsIn) (k : Keys) (pth : String) (p : List (String × JVal)),
      i.unlock = .ok k → Ev.submit pth p ∈ (createSubaccount i).2 →
      ("signature" ∉ fieldKeys (subaccountData k.coldkeyAddr k.hotkeyAddr
          i.accountSize i.assetClass)
       ∧ Ev.sign (jsonDumpsSorted (subaccountData k.coldkeyAddr k.hotkeyAddr
          i.accountSize i.assetClass)) ∈ (createSubaccount i).2
       ∧ p = subaccountData k.coldkeyAddr k.hotkeyAddr i.accountSize i.assetClass
          ++ [("signature", .jstr (k.signHex (jsonDumpsSorted (subaccountData
              k.coldkeyAddr k.hotkeyAddr i.accountSize i.assetClass))))]))
    ∧ (∀ (i : RegIn) (k : Keys) (pth : String) (p : List (String × JVal)),
      i.unlock = .ok k → Ev.submit pth p ∈ (register i).2 →
      ("signature" ∉ fieldKeys (registrationData k.coldkeyAddr k.hotkeyAddr)
       ∧ Ev.sign (jsonDumpsSorted (registrationData k.coldkeyAddr k.hotkeyAddr))
          ∈ (register i).2
       ∧ p = registrationData k.coldkeyAddr k.hotkeyAddr
          ++ [("signature", .jstr (k.signHex (jsonDumpsSorted (registrationData
              k.coldkeyAddr k.hotkeyAddr))))])) := by
  constructor
  · intro i k pth p hu hmem
    obtain ⟨-, hp, hsign, -⟩ := cs_submission_facts i k hu pth p hmem
    refine ⟨?_, hsign, ?_⟩
    · have h : fieldKeys (subaccountData k.coldkeyAddr k.hotkeyAddr
          i.accountSize i.assetClass)
        = ["entity_coldkey", "entity_hotkey", "account_size", "asset_class"] := rfl
      rw [h]
      decide
    · rw [hp]
      rfl
  · intro i k pth p hu hmem
    obtain ⟨-, hp, hsign, -⟩ := reg_submission_facts i k hu pth p hmem
    refine ⟨?_, hsign, ?_⟩
    · have h : fieldKeys (registrationData k.coldkeyAddr k.hotkeyAddr)
        = ["entity_coldkey", "entity_hotkey"] := rfl
      rw [h]
      decide
    · rw [hp]
      rfl

/-- C2 witness: both commands applied to fully favourable concrete runs
that do reach submission. -/
theorem C2_signature_excluded_witness :
    ("signature" ∉ fieldKeys (subaccountData "5ColdDemoAddr" "5HotDemoAddr"
        10000 "crypto")
     ∧ Ev.sign (jsonDumpsSorted (subaccountData "5ColdDemoAddr" "5HotDemoAddr"
        10000 "crypto")) ∈ (createSubaccount happyCsRun).2
     ∧ csPayload "5ColdDemoAddr" "5HotDemoAddr" 10000 "crypto" "ab12cd34"
        = subaccountData "5ColdDemoAddr" "5HotDemoAddr" 10000 "crypto"
          ++ [("signature", .jstr (demoKeys.signHex (jsonDumpsSorted (subaccountData
              "5ColdDemoAddr" "5HotDemoAddr" 10000 "crypto"))))])
    ∧ ("signature" ∉ fieldKeys (registrationData "5ColdDemoAddr" "5HotDemoAddr")
     ∧ Ev.sign (jsonDumpsSorted (registrationData "5ColdDemoAddr" "5HotDemoAddr"))
        ∈ (register happyRegRun).2
     ∧ regPayload "5ColdDemoAddr" "5HotDemoAddr" "ab12cd34"
        = registrationData "5ColdDemoAddr" "5HotDemoAddr"
          ++ [("signature", .jstr (demoKeys.signHex (jsonDumpsSorted (registrationData
              "5ColdDemoAddr" "5HotDemoAddr"))))]) :=
  ⟨C2_signature_excluded_and_posted_payload_exact.1 happyCsRun demoKeys
      "/entity/create-subaccount"
      (csPayload "5ColdDemoAddr" "5HotDemoAddr" 10000 "crypto" "ab12cd34")
      rfl (by rw [cs_happy_eval]; decide),
   C2_signature_excluded_and_posted_payload_exact.2 happyRegRun demoKeys
      "/entity/register" (regPayload "5ColdDemoAddr" "5HotDemoAddr" "ab12cd34")
      rfl (by decide)⟩

/-- C5 (amended): `create_subaccount` does return the structured
`{status: success|error, message, …}` dict on every terminal path, but
`register` never does — it returns a bare boolean on every normal
path (and can raise); the uniform structured contract fails for
Registration. -/
theorem C5_amended_result_shapes :
    (∀ i : CsIn, ∃ v, (createSubaccount i).1 = .ret v
      ∧ isStructuredResult v = true)
    ∧ (∀ i : RegIn,
        (∃ b, (register i).1 = .ret (.pbool b))
        ∨ (∃ m, (register i).1 = .exn m)) := by
  constructor
  · intro i
    unfold createSubaccount
    dsimp only
    repeat' split
    all_goals exact ⟨_, rfl, rfl⟩
  · intro i
    unfold register
    dsimp only
    repeat' split
    all_goals first
      | exact Or.inl ⟨_, rfl⟩
      | exact Or.inr ⟨_, rfl⟩

/-- C7 (amended): the confirmation gate sits after wallet unlock and
*before* the balance check, not between `BalanceChecked` and `Signed`:
with validation passing and confirmation enabled, declining terminates
with the cancelled error and a trace holding only the confirmation
prompt (no network call), and accepting proceeds to the balance fetch
immediately after the prompt.  `register` behaves the same with its
boolean `False` in place of the error dict. -/
theorem C7_amended_confirmation_between_unlock_and_balance :
    (∀ (i : CsIn) (k : Keys), i.unlock = .ok k → i.prompt = true →
      0 < i.accountSize → i.accountSize ≤ maxAccountSize →
      ((i.confirm = false →
        createSubaccount i = (.ret (errDict "Subaccount creation cancelled"),
          [Ev.confirmPrompt (csConfirmText k.hotkeyAddr i.accountSize
            i.assetClass (requiredTheta i.accountSize))]))
       ∧ (i.confirm = true →
        ∃ rest, (createSubaccount i).2 =
          Ev.confirmPrompt (csConfirmText k.hotkeyAddr i.accountSize
            i.assetClass (requiredTheta i.accountSize))
          :: Ev.balanceFetch ("/collateral/balance/" ++ k.hotkeyAddr) :: rest)))
    ∧ (∀ (i : RegIn) (k : Keys), i.unlock = .ok k → i.prompt = true →
      ((i.confirm = false →
        register i = (.ret (.pbool false),
          [Ev.confirmPrompt (regConfirmText k.hotkeyAddr i.maxSubaccounts)]))
       ∧ (i.confirm = true →
        ∃ rest, (register i).2 =
          Ev.confirmPrompt (regConfirmText k.hotkeyAddr i.maxSubaccounts)
          :: Ev.balanceFetch ("/collateral/balance/" ++ k.hotkeyAddr) :: rest))) := by
  constructor
  · intro i k hu hp h0 hmax
    unfold createSubaccount
    rw [hu]
    constructor
    · intro hc
      rw [if_neg (not_lt.mpr hmax), if_neg (not_le.mpr h0)]
      simp [hp, hc]
    · intro hc
      rw [if_neg (not_lt.mpr hmax), if_neg (not_le.mpr h0)]
      simp only [hp, hc, Bool.not_true, Bool.and_false, if_neg, Bool.false_eq_true,
        if_false, Bool.and_true, if_true]
      repeat' split
      all_goals exact ⟨_, rfl⟩
  · intro i k hu hp
    unfold register
    rw [hu]
    constructor
    · intro hc
      simp [hp, hc]
    · intro hc
      simp only [hp, hc, Bool.not_true, Bool.and_false, if_neg, Bool.false_eq_true,
        if_false, Bool.and_true, if_true]
      repeat' split
      all_goals exact ⟨_, rfl⟩

/-- C7 witness: the amended statement applied to a declined and an
accepted concrete confirmation run of each command. -/
theorem C7_amended_confirmation_witness :
    (createSubaccount c7Run = (.ret (errDict "Subaccount creation cancelled"),
      [Ev.confirmPrompt (csConfirmText "5HotDemoAddr" 10000 "crypto"
        (requiredTheta 10000))]))
    ∧ (∃ rest, (createSubaccount c7AcceptRun).2 =
        Ev.confirmPrompt (csConfirmText "5HotDemoAddr" 10000 "crypto"
          (requiredTheta 10000))
        :: Ev.balanceFetch "/collateral/balance/5HotDemoAddr" :: rest)
    ∧ (register c7RegRun = (.ret (.pbool false),
        [Ev.confirmPrompt (regConfirmText "5HotDemoAddr" 500)])) :=
  ⟨(C7_amended_confirmation_between_unlock_and_balance.1 c7Run demoKeys rfl rfl
      (by decide) (by decide)).1 rfl,
   (C7_amended_confirmation_between_unlock_and_balance.1 c7AcceptRun demoKeys rfl rfl
      (by decide) (by decide)).2 rfl,
   (C7_amended_confirmation_between_unlock_and_balance.2 c7RegRun demoKeys rfl rfl).1
      rfl⟩

/-- C9 counterexample: `register` discards the server-supplied error
message — a submission response with status `"failed"` and error
`"entity already registered"` yields the bare boolean `False`, which
carries no message at all. -/
theorem C9_counterexample_register_discards_server_message :
    (register c9RegRun).1 = .ret (.pbool false)
    ∧ carriesMessage (.pbool false) "entity already registered" = false := by
  constructor
  · exact (reg_submission_facts c9RegRun demoKeys rfl "/entity/register"
      (regPayload "5ColdDemoAddr" "5HotDemoAddr" "ab12cd34") (by decide)).2.2.2
      _ rfl (by simp)
  · rfl

/-- C9 (amended): for `create_subaccount`, a submission response with a
non-success status and a nonempty `error` field makes the run return an
error result whose message is `"Subaccount creation failed: "` followed
by the server's error string verbatim (so the result carries it as a
contiguous substring); `register` merely returns `False`. -/
theorem C9_amended_error_message_verbatim :
    (∀ (i : CsIn) (k : Keys) (r : SubResp) (e pth : String)
        (p : List (String × JVal)),
      i.unlock = .ok k → Ev.submit pth p ∈ (createSubaccount i).2 →
      i.submitResp = .ok (some r) → r.status ≠ some "success" →
      r.error = some e → e ≠ "" →
      (createSubaccount i).1
        = .ret (errDict ("Subaccount creation failed: " ++ e))
      ∧ carriesMessage (errDict ("Subaccount creation failed: " ++ e)) e = true)
    ∧ (∀ (i : RegIn) (k : Keys) (r : SubResp) (pth : String)
        (p : List (String × JVal)),
      i.unlock = .ok k → Ev.submit pth p ∈ (register i).2 →
      i.submitResp = .ok (some r) → r.status ≠ some "success" →
      (register i).1 = .ret (.pbool false)) := by
  constructor
  · intro i k r e pth p hu hmem hresp hstat herr hne
    obtain ⟨-, -, -, hfail⟩ := cs_submission_facts i k hu pth p hmem
    have hmsg : pyOr r.error "Unknown error occurred" = e := by
      rw [herr]
      unfold pyOr
      simp [hne]
    constructor
    · have := hfail r hresp hstat
      rw [hmsg] at this
      exact this
    · show strContainsSub ("Subaccount creation failed: " ++ e) e = true
      exact strContainsSub_suffix _ e
  · intro i k r pth p hu hmem hresp hstat
    exact (reg_submission_facts i k hu pth p hmem).2.2.2 r hresp hstat

/-- C9 witness: the amended statement applied to concrete runs whose
submission responses carry status `"failed"` and a server error
string. -/
theorem C9_amended_error_message_witness :
    ((createSubaccount c9CsRun).1
        = .ret (errDict ("Subaccount creation failed: " ++ "duplicate subaccount"))
      ∧ carriesMessage (errDict ("Subaccount creation failed: " ++ "duplicate subaccount"))
          "duplicate subaccount" = true)
    ∧ (register c9RegRun).1 = .ret (.pbool false) :=
  ⟨C9_amended_error_message_verbatim.1 c9CsRun demoKeys
      { status := some "failed", message := none,
        error := some "duplicate subaccount", subaccount := none }
      "duplicate subaccount" "/entity/create-subaccount"
      (csPayload "5ColdDemoAddr" "5HotDemoAddr" 10000 "crypto" "ab12cd34")
      rfl (by rw [cs_c9_eval]; decide) rfl (by decide) rfl (by decide),
   C9_amended_error_message_verbatim.2 c9RegRun demoKeys
      { status := some "failed", message := none,
        error := some "entity already registered", subaccount := none }
      "/entity/register" (regPayload "5ColdDemoAddr" "5HotDemoAddr" "ab12cd34")
      rfl (by decide) rfl (by decide)⟩

/-- C10: `max_subaccounts` never reaches the wire — two `register`
invocations differing only in that argument sign the identical
canonical message, POST the identical payload, and return the identical
value (the argument appears only in the local confirmation prompt
text). -/
theorem C10_max_subaccounts_not_signed_nor_transmitted :
    ∀ (i : RegIn) (m₁ m₂ : ℤ),
      signedMessages (register { i with maxSubaccounts := m₁ }).2
        = signedMessages (register { i with maxSubaccounts := m₂ }).2
      ∧ submittedPayloads (register { i with maxSubaccounts := m₁ }).2
        = submittedPayloads (register { i with maxSubaccounts := m₂ }).2
      ∧ (register { i with maxSubaccounts := m₁ }).1
        = (register { i with maxSubaccounts := m₂ }).1 := by
  intro i m₁ m₂
  obtain ⟨m, prompt, unlock, confirm, bal, subr⟩ := i
  unfold register
  dsimp only
  repeat' split
  all_goals exact ⟨rfl, rfl, rfl⟩

end VantaCli
